import Mathlib

/-!
# crossplane-provider-grpc: the user store and its controller

A shallow embedding of

* `grpc-server/main.go`: the in-memory user service (`server.CreateUser`,
  `server.GetUser`, `server.UpdateUser`, `server.DeleteUser`) over a
  `sync.Map` keyed by the user id;
* `internal/controller/user/user.go`: the managed-resource client
  (`external.Observe`, `external.Create`, `external.Update`,
  `external.Delete`).

Handlers are state-passing functions: they take the server and return the
answer together with the server after the call. Log and print statements
have no effect on answers or on the cache and are left out.
-/

namespace codes

/-- The gRPC status codes of `google.golang.org/grpc/codes`. -/
inductive Code where
  | OK
  | Canceled
  | Unknown
  | InvalidArgument
  | DeadlineExceeded
  | NotFound
  | AlreadyExists
  | PermissionDenied
  | ResourceExhausted
  | FailedPrecondition
  | Aborted
  | OutOfRange
  | Unimplemented
  | Internal
  | Unavailable
  | DataLoss
  | Unauthenticated
  deriving DecidableEq, Repr

end codes

/-- A Go `error` value, as far as the two source files build and inspect
one: a gRPC status error (`status.Errorf`), a plain error (`errors.New`), or
an error wrapped with a message (`errors.Wrap`). -/
inductive GoError where
  | status (code : codes.Code) (msg : String)
  | new (msg : String)
  | wrap (cause : GoError) (msg : String)
  deriving DecidableEq, Repr

namespace status

/-- The call `status.Errorf(c, format, args...)` with the message already
formatted. -/
def Errorf (c : codes.Code) (msg : String) : GoError :=
  GoError.status c msg

/-- The call `status.Code(err)` on a non-nil error: the code of a status
error, `Unknown` for an error that is not one. -/
def Code : GoError → codes.Code
  | GoError.status c _ => c
  | GoError.new _ => codes.Code.Unknown
  | GoError.wrap _ _ => codes.Code.Unknown

end status

namespace userapi

/-- The message `userapi.User`. -/
structure User where
  Id : String
  Name : String
  Email : String
  deriving DecidableEq, Repr

/-- The message `userapi.GetRequest`. -/
structure GetRequest where
  Id : String
  deriving DecidableEq, Repr

/-- The message `userapi.UserResponse`; `User` is a pointer and may be nil. -/
structure UserResponse where
  Status : String
  Message : String
  User : Option User
  deriving DecidableEq, Repr

end userapi

/-- The `sync.Map` of the server, from user id to user: an association list
in which the first entry of a key is the one that counts. -/
abbrev Cache := List (String × userapi.User)

namespace Cache

/-- The method `sync.Map.Load`: the value under `key`, if any. -/
def Load : Cache → String → Option userapi.User
  | [], _ => none
  | (k, v) :: rest, key => if k = key then some v else Load rest key

/-- The method `sync.Map.Delete`: drop every entry of `key`. -/
def Delete : Cache → String → Cache
  | [], _ => []
  | (k, v) :: rest, key =>
    if k = key then Delete rest key else (k, v) :: Delete rest key

/-- The method `sync.Map.Store`: set the value under `key`. -/
def Store (c : Cache) (key : String) (value : userapi.User) : Cache :=
  (key, value) :: Delete c key

/-- The keys of the map. -/
def keys (c : Cache) : List String :=
  c.map Prod.fst

end Cache

/-- The struct `server`: the user cache. -/
structure server where
  cache : Cache
  deriving DecidableEq, Repr

namespace server

/-- The handler `server.CreateUser`. -/
def CreateUser (s : server) (user : userapi.User) :
    Except GoError userapi.UserResponse × server :=
  match s.cache.Load user.Id with
  | some _ =>
    (Except.error (status.Errorf codes.Code.AlreadyExists
      ("User with ID '" ++ user.Id ++ "' already exists.")), s)
  | none =>
    (Except.ok ⟨"Success", "User created successfully", some user⟩,
      ⟨s.cache.Store user.Id user⟩)

/-- The handler `server.GetUser`. -/
def GetUser (s : server) (req : userapi.GetRequest) :
    Except GoError userapi.User × server :=
  match s.cache.Load req.Id with
  | none =>
    (Except.error (status.Errorf codes.Code.NotFound
      ("User with ID '" ++ req.Id ++ "' not found.")), s)
  | some value => (Except.ok value, s)

/-- The handler `server.UpdateUser`. -/
def UpdateUser (s : server) (user : userapi.User) :
    Except GoError userapi.UserResponse × server :=
  match s.cache.Load user.Id with
  | none =>
    (Except.error (status.Errorf codes.Code.NotFound
      ("User with ID '" ++ user.Id ++ "' not found.")), s)
  | some _ =>
    (Except.ok ⟨"Success", "User updated successfully", some user⟩,
      ⟨s.cache.Store user.Id user⟩)

/-- The handler `server.DeleteUser`. -/
def DeleteUser (s : server) (req : userapi.GetRequest) :
    Except GoError userapi.UserResponse × server :=
  match s.cache.Load req.Id with
  | none =>
    (Except.error (status.Errorf codes.Code.NotFound
      ("User with ID '" ++ req.Id ++ "' not found.")), s)
  | some _ =>
    (Except.ok ⟨"Success", "User deleted successfully", none⟩,
      ⟨s.cache.Delete req.Id⟩)

end server

/-! ## Concurrent calls of `CreateUser`

Each method of `sync.Map` is atomic, a handler is not: `CreateUser` is a
`Load`, then a `Store`, and calls served by different goroutines interleave
between the two. -/

/-- Where a running `CreateUser` call stands: before its `Load`, after it
with the flag `found` in hand, or returned with its answer. -/
inductive CreateUserCall where
  | start (user : userapi.User)
  | loaded (user : userapi.User) (found : Bool)
  | returned (answer : Except GoError userapi.UserResponse)

namespace CreateUserCall

/-- One atomic step of a `CreateUser` call on the shared server: the `Load`,
or the branch on `found` with the `Store` and the return. -/
def step (s : server) : CreateUserCall → CreateUserCall × server
  | start user => (loaded user (s.cache.Load user.Id).isSome, s)
  | loaded user true =>
    (returned (Except.error (status.Errorf codes.Code.AlreadyExists
      ("User with ID '" ++ user.Id ++ "' already exists."))), s)
  | loaded user false =>
    (returned (Except.ok ⟨"Success", "User created successfully", some user⟩),
      ⟨s.cache.Store user.Id user⟩)
  | returned answer => (returned answer, s)

/-- The call has returned a success. -/
def succeeded : CreateUserCall → Bool
  | returned (Except.ok _) => true
  | _ => false

/-- The call has returned an error with code `AlreadyExists`. -/
def alreadyExists : CreateUserCall → Bool
  | returned (Except.error e) => decide (status.Code e = codes.Code.AlreadyExists)
  | _ => false

end CreateUserCall

/-- Run concurrent `CreateUser` calls under a schedule: each entry of the
schedule names the call that takes the next atomic step. -/
def runCalls (s : server) (calls : List CreateUserCall) :
    List Nat → List CreateUserCall × server
  | [] => (calls, s)
  | i :: schedule =>
    match calls.get? i with
    | none => runCalls s calls schedule
    | some call =>
      runCalls (call.step s).2 (calls.set i (call.step s).1) schedule

/-! ## The controller -/

namespace v1alpha1

/-- Modelled from the spec: the declaration of `v1alpha1.UserParameters` is
not among the sources; the desired state is an identifier and the desired
attribute values, of which `user.go` reads `Id` as a string and `Name` and
`Email` as pointers to strings that may be nil. -/
structure UserParameters where
  Id : String
  Name : Option String
  Email : Option String
  deriving DecidableEq, Repr

/-- Modelled from the spec: the declaration of `v1alpha1.UserSpec` is not
among the sources; `user.go` reads its field `ForProvider`. -/
structure UserSpec where
  ForProvider : UserParameters
  deriving DecidableEq, Repr

/-- Modelled from the spec: the declaration of the managed resource
`v1alpha1.User` is not among the sources; `user.go` reads its field `Spec`. -/
structure User where
  Spec : UserSpec
  deriving DecidableEq, Repr

end v1alpha1

namespace resource

/-- A value of the interface `resource.Managed`, as the type assertion
`mg.(*v1alpha1.User)` sees it: a User, or a resource of another kind. -/
inductive Managed where
  | User (cr : v1alpha1.User)
  | other (kind : String)
  deriving DecidableEq, Repr

end resource

namespace managed

/-- The map type `managed.ConnectionDetails`; `none` is the nil map. -/
abbrev ConnectionDetails := Option (List (String × String))

/-- The struct `managed.ExternalObservation`. -/
structure ExternalObservation where
  ResourceExists : Bool
  ResourceUpToDate : Bool
  ResourceLateInitialized : Bool
  ConnectionDetails : ConnectionDetails
  deriving DecidableEq, Repr

/-- The zero value `managed.ExternalObservation{}`. -/
def ExternalObservation.zero : ExternalObservation :=
  ⟨false, false, false, none⟩

/-- The struct `managed.ExternalCreation`. -/
structure ExternalCreation where
  ConnectionDetails : ConnectionDetails
  deriving DecidableEq, Repr

/-- The struct `managed.ExternalUpdate`. -/
structure ExternalUpdate where
  ConnectionDetails : ConnectionDetails
  deriving DecidableEq, Repr

end managed

/-- The constant `errNotUser`. -/
def errNotUser : String := "managed resource is not a User custom resource"

/-- The interface `userapi.UserServiceClient`: four calls against a service
whose state has type `σ`; each returns its answer and the state after it. -/
structure userapi.UserServiceClient (σ : Type) where
  CreateUser : σ → userapi.User → Except GoError userapi.UserResponse × σ
  GetUser : σ → userapi.GetRequest → Except GoError userapi.User × σ
  UpdateUser : σ → userapi.User → Except GoError userapi.UserResponse × σ
  DeleteUser : σ → userapi.GetRequest → Except GoError userapi.UserResponse × σ

/-- The struct `UserService`. -/
structure UserService (σ : Type) where
  userCli : userapi.UserServiceClient σ

/-- The struct `external`. -/
structure external (σ : Type) where
  service : UserService σ

/-- The error half of a Go `(value, error)` answer: `none` is nil. -/
def errorOf {α : Type} : Except GoError α → Option GoError
  | Except.error e => some e
  | Except.ok _ => none

namespace external

/-- The method `external.Observe`. -/
def Observe {σ : Type} (c : external σ) (st : σ) (mg : resource.Managed) :
    (managed.ExternalObservation × Option GoError) × σ :=
  match mg with
  | resource.Managed.other _ =>
    ((managed.ExternalObservation.zero, some (GoError.new errNotUser)), st)
  | resource.Managed.User cr =>
    match c.service.userCli.GetUser st ⟨cr.Spec.ForProvider.Id⟩ with
    | (Except.error err, st1) =>
      if status.Code err = codes.Code.NotFound then
        ((⟨false, false, false, none⟩, none), st1)
      else
        ((managed.ExternalObservation.zero,
          some (GoError.wrap err "cannot get user")), st1)
    | (Except.ok _, st1) => ((⟨true, true, false, some []⟩, none), st1)

/-- The method `external.Create`. -/
def Create {σ : Type} (c : external σ) (st : σ) (mg : resource.Managed) :
    (managed.ExternalCreation × Option GoError) × σ :=
  match mg with
  | resource.Managed.other _ => ((⟨none⟩, some (GoError.new errNotUser)), st)
  | resource.Managed.User cr =>
    let name := match cr.Spec.ForProvider.Name with
      | some n => n
      | none => ""
    let email := match cr.Spec.ForProvider.Email with
      | some e => e
      | none => ""
    match c.service.userCli.CreateUser st ⟨cr.Spec.ForProvider.Id, name, email⟩ with
    | (answer, st1) => ((⟨some []⟩, errorOf answer), st1)

/-- The method `external.Update`. -/
def Update {σ : Type} (_c : external σ) (st : σ) (mg : resource.Managed) :
    (managed.ExternalUpdate × Option GoError) × σ :=
  match mg with
  | resource.Managed.other _ => ((⟨none⟩, some (GoError.new errNotUser)), st)
  | resource.Managed.User _ => ((⟨some []⟩, none), st)

/-- The method `external.Delete`. -/
def Delete {σ : Type} (_c : external σ) (st : σ) (mg : resource.Managed) :
    Option GoError × σ :=
  match mg with
  | resource.Managed.other _ => (some (GoError.new errNotUser), st)
  | resource.Managed.User _ => (none, st)

end external

/-- The generated client connected to the server of `main.go`: each call
runs the handler of the same name and hands back its answer. -/
def server.client : userapi.UserServiceClient server :=
  ⟨server.CreateUser, server.GetUser, server.UpdateUser, server.DeleteUser⟩

/-- A client whose every call fails with the error `err` and reaches no
service, as when the transport is down. -/
def failingClient (err : GoError) : userapi.UserServiceClient Unit :=
  ⟨fun st _ => (Except.error err, st), fun st _ => (Except.error err, st),
    fun st _ => (Except.error err, st), fun st _ => (Except.error err, st)⟩

/-! ## Sequences of requests -/

/-- A request to the user service: one of the four handlers with its
argument. -/
inductive Request where
  | CreateUser (user : userapi.User)
  | GetUser (req : userapi.GetRequest)
  | UpdateUser (user : userapi.User)
  | DeleteUser (req : userapi.GetRequest)
  deriving DecidableEq, Repr

/-- The server after one request has been served. -/
def server.serve (s : server) : Request → server
  | Request.CreateUser user => (s.CreateUser user).2
  | Request.GetUser req => (s.GetUser req).2
  | Request.UpdateUser user => (s.UpdateUser user).2
  | Request.DeleteUser req => (s.DeleteUser req).2

/-- The server after a sequence of requests, served one after the other. -/
def server.serveAll (s : server) : List Request → server
  | [] => s
  | r :: rest => (s.serve r).serveAll rest

/-- Every record of the cache carries the key it is stored under as its
`Id`. -/
def Cache.keyed (c : Cache) : Prop :=
  ∀ k v, (k, v) ∈ c → v.Id = k

/-! ## Connecting -/

/-- How a piece of code ends: it returns a value, or it ends the process
(`log.Fatalf` prints and calls `os.Exit(1)`). -/
inductive Outcome (α : Type) where
  | returned (value : α)
  | exited (code : Nat)

namespace grpc

/-- A `*grpc.ClientConn` to a service whose state has type `σ`: the calls
that a client built on the connection reaches. -/
structure ClientConn (σ : Type) where
  calls : userapi.UserServiceClient σ

end grpc

/-- The constructor `userapi.NewUserServiceClient`. -/
def userapi.NewUserServiceClient {σ : Type} (conn : grpc.ClientConn σ) :
    userapi.UserServiceClient σ :=
  conn.calls

/-- The constant `errNewClient`. -/
def errNewClient : String := "cannot create new Service"

/-- The function `newUserService`; `dial` is what `grpc.Dial` answers. A Go
`(value, error)` answer is an `Except`. -/
def newUserService {σ : Type} (dial : Except GoError (grpc.ClientConn σ))
    (_creds : String) : Outcome (Except GoError (UserService σ)) :=
  match dial with
  | Except.error _ => Outcome.exited 1
  | Except.ok conn => Outcome.returned (Except.ok ⟨userapi.NewUserServiceClient conn⟩)

/-- The struct `connector`; `Connect` reads only the field `newServiceFn`. -/
structure connector (σ : Type) where
  newServiceFn : String → Outcome (Except GoError (UserService σ))

/-- The method `connector.Connect`: the pair of the client, `none` for nil,
and the error, `none` for nil. -/
def connector.Connect {σ : Type} (c : connector σ) (_mg : resource.Managed) :
    Outcome (Option (external σ) × Option GoError) :=
  match c.newServiceFn "fake creds" with
  | Outcome.exited code => Outcome.exited code
  | Outcome.returned (Except.error err) =>
    Outcome.returned (none, some (GoError.wrap err errNewClient))
  | Outcome.returned (Except.ok svc) => Outcome.returned (some ⟨svc⟩, none)

/-- A client that counts the calls it receives and answers each with an
`Unavailable` error. -/
def countingClient : userapi.UserServiceClient Nat :=
  ⟨fun n _ => (Except.error (GoError.status codes.Code.Unavailable "down"), n + 1),
    fun n _ => (Except.error (GoError.status codes.Code.Unavailable "down"), n + 1),
    fun n _ => (Except.error (GoError.status codes.Code.Unavailable "down"), n + 1),
    fun n _ => (Except.error (GoError.status codes.Code.Unavailable "down"), n + 1)⟩

/-- The answer of a handler is an error whose status code is `c`. -/
def failsWith {α : Type} (r : Except GoError α) (c : codes.Code) : Prop :=
  ∃ e, r = Except.error e ∧ status.Code e = c

/-- The answer of a handler is a success carrying `a`. -/
def returns {α : Type} (r : Except GoError α) (a : α) : Prop :=
  r = Except.ok a

/-! ## The cache -/

theorem Cache.Load_isSome_iff (c : Cache) (key : String) :
    (c.Load key).isSome = true ↔ key ∈ c.keys := by
  induction c with
  | nil => simp [Cache.Load, Cache.keys]
  | cons e rest ih =>
    obtain ⟨k, v⟩ := e
    by_cases h : k = key
    · simp [Cache.Load, Cache.keys, h]
    · have h2 : ¬ key = k := fun h3 => h h3.symm
      simp only [Cache.keys] at ih
      simp [Cache.Load, Cache.keys, h, h2, ih]

theorem Cache.Load_eq_none_iff (c : Cache) (key : String) :
    c.Load key = none ↔ key ∉ c.keys := by
  rw [← Cache.Load_isSome_iff]
  cases c.Load key <;> simp

theorem Cache.Load_Delete_of_ne (c : Cache) (a b : String) (h : a ≠ b) :
    (c.Delete a).Load b = c.Load b := by
  induction c with
  | nil => simp [Cache.Delete, Cache.Load]
  | cons e rest ih =>
    obtain ⟨k, v⟩ := e
    by_cases hk : k = a
    · have hb : ¬ a = b := h
      simp [Cache.Delete, Cache.Load, hk, hb, ih]
    · by_cases hb : k = b
      · subst hb
        have hk2 : ¬ k = a := hk
        simp [Cache.Delete, Cache.Load, hk2]
      · simp [Cache.Delete, Cache.Load, hk, hb, ih]

theorem Cache.Load_Delete_self (c : Cache) (key : String) :
    (c.Delete key).Load key = none := by
  induction c with
  | nil => simp [Cache.Delete, Cache.Load]
  | cons e rest ih =>
    obtain ⟨k, v⟩ := e
    by_cases hk : k = key
    · simp [Cache.Delete, hk, ih]
    · simp [Cache.Delete, Cache.Load, hk, ih]

theorem Cache.Load_Store_self (c : Cache) (key : String) (v : userapi.User) :
    (c.Store key v).Load key = some v := by
  simp [Cache.Store, Cache.Load]

theorem Cache.Load_Store_of_ne (c : Cache) (a b : String) (v : userapi.User)
    (h : a ≠ b) : (c.Store a v).Load b = c.Load b := by
  simp [Cache.Store, Cache.Load, h, Cache.Load_Delete_of_ne c a b h]

theorem Cache.not_mem_keys_Delete (c : Cache) (key : String) :
    key ∉ (c.Delete key).keys :=
  (Cache.Load_eq_none_iff _ _).1 (Cache.Load_Delete_self c key)

theorem Cache.mem_of_Load_eq_some (c : Cache) (key : String) (v : userapi.User)
    (h : c.Load key = some v) : (key, v) ∈ c := by
  induction c with
  | nil => simp [Cache.Load] at h
  | cons e rest ih =>
    obtain ⟨k, w⟩ := e
    by_cases hk : k = key
    · simp [Cache.Load, hk] at h
      simp [hk, h]
    · simp [Cache.Load, hk] at h
      exact List.mem_cons_of_mem _ (ih h)

theorem Cache.exists_Load_of_mem_keys (c : Cache) (key : String)
    (h : key ∈ c.keys) : ∃ v, c.Load key = some v := by
  have h1 := (Cache.Load_isSome_iff c key).2 h
  exact Option.isSome_iff_exists.1 h1

/-! ## The handlers, case by case -/

theorem server.CreateUser_of_Load_none (s : server) (u : userapi.User)
    (h : s.cache.Load u.Id = none) :
    s.CreateUser u =
      (Except.ok ⟨"Success", "User created successfully", some u⟩,
        ⟨s.cache.Store u.Id u⟩) := by
  simp [server.CreateUser, h]

theorem server.CreateUser_of_Load_some (s : server) (u v : userapi.User)
    (h : s.cache.Load u.Id = some v) :
    s.CreateUser u =
      (Except.error (GoError.status codes.Code.AlreadyExists
        ("User with ID '" ++ u.Id ++ "' already exists.")), s) := by
  simp [server.CreateUser, h, status.Errorf]

theorem server.GetUser_of_Load_none (s : server) (req : userapi.GetRequest)
    (h : s.cache.Load req.Id = none) :
    s.GetUser req =
      (Except.error (GoError.status codes.Code.NotFound
        ("User with ID '" ++ req.Id ++ "' not found.")), s) := by
  simp [server.GetUser, h, status.Errorf]

theorem server.GetUser_of_Load_some (s : server) (req : userapi.GetRequest)
    (v : userapi.User) (h : s.cache.Load req.Id = some v) :
    s.GetUser req = (Except.ok v, s) := by
  simp [server.GetUser, h]

theorem server.UpdateUser_of_Load_none (s : server) (u : userapi.User)
    (h : s.cache.Load u.Id = none) :
    s.UpdateUser u =
      (Except.error (GoError.status codes.Code.NotFound
        ("User with ID '" ++ u.Id ++ "' not found.")), s) := by
  simp [server.UpdateUser, h, status.Errorf]

theorem server.UpdateUser_of_Load_some (s : server) (u v : userapi.User)
    (h : s.cache.Load u.Id = some v) :
    s.UpdateUser u =
      (Except.ok ⟨"Success", "User updated successfully", some u⟩,
        ⟨s.cache.Store u.Id u⟩) := by
  simp [server.UpdateUser, h]

theorem server.DeleteUser_of_Load_none (s : server) (req : userapi.GetRequest)
    (h : s.cache.Load req.Id = none) :
    s.DeleteUser req =
      (Except.error (GoError.status codes.Code.NotFound
        ("User with ID '" ++ req.Id ++ "' not found.")), s) := by
  simp [server.DeleteUser, h, status.Errorf]

theorem server.DeleteUser_of_Load_some (s : server) (req : userapi.GetRequest)
    (v : userapi.User) (h : s.cache.Load req.Id = some v) :
    s.DeleteUser req =
      (Except.ok ⟨"Success", "User deleted successfully", none⟩,
        ⟨s.cache.Delete req.Id⟩) := by
  simp [server.DeleteUser, h]

/-! ## Create -/

/-- C1: `CreateUser(u)` fails with status code `AlreadyExists` exactly when
`u.Id` is already a key of the store; otherwise it succeeds, the resulting
store maps `u.Id` to `u`, and the response carries `u`. -/
theorem CreateUser_alreadyExists_iff (s : server) (u : userapi.User) :
    (failsWith (s.CreateUser u).1 codes.Code.AlreadyExists ↔ u.Id ∈ s.cache.keys) ∧
    (u.Id ∉ s.cache.keys →
      returns (s.CreateUser u).1 ⟨"Success", "User created successfully", some u⟩ ∧
      (s.CreateUser u).2.cache.Load u.Id = some u) := by
  cases h : s.cache.Load u.Id with
  | none =>
    have hk : u.Id ∉ s.cache.keys := (Cache.Load_eq_none_iff _ _).1 h
    rw [server.CreateUser_of_Load_none s u h]
    refine ⟨⟨?_, fun hin => absurd hin hk⟩, fun _ => ⟨rfl, ?_⟩⟩
    · rintro ⟨e, he, _⟩
      cases he
    · exact Cache.Load_Store_self _ _ _
  | some v =>
    have hk : u.Id ∈ s.cache.keys :=
      (Cache.Load_isSome_iff _ _).1 (by simp [h])
    rw [server.CreateUser_of_Load_some s u v h]
    exact ⟨⟨fun _ => hk, fun _ => ⟨_, rfl, rfl⟩⟩, fun hn => absurd hk hn⟩

/-- A create of a fresh id on a store holding another user. -/
theorem CreateUser_alreadyExists_iff_witness :
    returns ((server.mk [("u0", ⟨"u0", "Bob", "bob@example.org"⟩)]).CreateUser
        ⟨"u1", "Ann", "ann@example.org"⟩).1
      ⟨"Success", "User created successfully", some ⟨"u1", "Ann", "ann@example.org"⟩⟩ ∧
    ((server.mk [("u0", ⟨"u0", "Bob", "bob@example.org"⟩)]).CreateUser
        ⟨"u1", "Ann", "ann@example.org"⟩).2.cache.Load "u1" =
      some ⟨"u1", "Ann", "ann@example.org"⟩ :=
  (CreateUser_alreadyExists_iff (server.mk [("u0", ⟨"u0", "Bob", "bob@example.org"⟩)])
    ⟨"u1", "Ann", "ann@example.org"⟩).2 (by decide)

/-- C2: when `r.Id` is not a key of the store, `CreateUser(r)` succeeds and a
`GetUser` for `r.Id` on the resulting store succeeds and returns exactly
`r`. -/
theorem CreateUser_then_GetUser (s : server) (r : userapi.User)
    (h : r.Id ∉ s.cache.keys) :
    (∃ resp, (s.CreateUser r).1 = Except.ok resp) ∧
    ((s.CreateUser r).2.GetUser ⟨r.Id⟩).1 = Except.ok r := by
  have hl : s.cache.Load r.Id = none := (Cache.Load_eq_none_iff _ _).2 h
  rw [server.CreateUser_of_Load_none s r hl]
  refine ⟨⟨_, rfl⟩, ?_⟩
  exact congrArg Prod.fst (server.GetUser_of_Load_some ⟨s.cache.Store r.Id r⟩
    ⟨r.Id⟩ r (Cache.Load_Store_self _ _ _))

/-- A create then a read of a fresh id on the empty store. -/
theorem CreateUser_then_GetUser_witness :
    "u1" ∉ (server.mk []).cache.keys ∧
    ((∃ resp, ((server.mk []).CreateUser ⟨"u1", "Ann", "ann@example.org"⟩).1
        = Except.ok resp) ∧
      (((server.mk []).CreateUser ⟨"u1", "Ann", "ann@example.org"⟩).2.GetUser ⟨"u1"⟩).1
        = Except.ok ⟨"u1", "Ann", "ann@example.org"⟩) :=
  ⟨by decide, CreateUser_then_GetUser (server.mk []) ⟨"u1", "Ann", "ann@example.org"⟩
    (by decide)⟩

/-- A `CreateUser` call that takes its two steps with no other call in
between is the handler `server.CreateUser`. -/
theorem CreateUserCall.step_step_start (s : server) (u : userapi.User) :
    (((CreateUserCall.start u).step s).1.step ((CreateUserCall.start u).step s).2) =
      (CreateUserCall.returned (s.CreateUser u).1, (s.CreateUser u).2) := by
  cases h : s.cache.Load u.Id with
  | none => simp [CreateUserCall.step, server.CreateUser, h]
  | some v => simp [CreateUserCall.step, server.CreateUser, h]

/-- Two `CreateUser` calls for one id that run one after the other: the
first succeeds and the second fails with `AlreadyExists`. -/
theorem runCalls_one_after_the_other :
    (runCalls ⟨[]⟩
      [CreateUserCall.start ⟨"u2", "Ann", "ann@example.org"⟩,
        CreateUserCall.start ⟨"u2", "Bob", "bob@example.org"⟩]
      [0, 0, 1, 1]).1.map CreateUserCall.succeeded = [true, false] ∧
    (runCalls ⟨[]⟩
      [CreateUserCall.start ⟨"u2", "Ann", "ann@example.org"⟩,
        CreateUserCall.start ⟨"u2", "Bob", "bob@example.org"⟩]
      [0, 0, 1, 1]).1.map CreateUserCall.alreadyExists = [false, true] := by
  decide

/-- C3: two concurrent `CreateUser` calls for the id `u2` on the empty
store, scheduled so that both take their `Load` before either takes its
`Store`, both return a success, none returns `AlreadyExists`, and the store
keeps the record of the call that stored last. -/
theorem CreateUser_race_both_succeed :
    (runCalls ⟨[]⟩
      [CreateUserCall.start ⟨"u2", "Ann", "ann@example.org"⟩,
        CreateUserCall.start ⟨"u2", "Bob", "bob@example.org"⟩]
      [0, 1, 0, 1]).1.map CreateUserCall.succeeded = [true, true] ∧
    (runCalls ⟨[]⟩
      [CreateUserCall.start ⟨"u2", "Ann", "ann@example.org"⟩,
        CreateUserCall.start ⟨"u2", "Bob", "bob@example.org"⟩]
      [0, 1, 0, 1]).1.map CreateUserCall.alreadyExists = [false, false] ∧
    (runCalls ⟨[]⟩
      [CreateUserCall.start ⟨"u2", "Ann", "ann@example.org"⟩,
        CreateUserCall.start ⟨"u2", "Bob", "bob@example.org"⟩]
      [0, 1, 0, 1]).2 = ⟨[("u2", ⟨"u2", "Bob", "bob@example.org"⟩)]⟩ := by
  decide

/-! ## Update -/

/-- C5: `UpdateUser(u)` fails with status code `NotFound` exactly when `u.Id`
is not a key of the store, and then inserts nothing; otherwise it succeeds,
the resulting store maps `u.Id` to `u`, and the response carries `u`. -/
theorem UpdateUser_notFound_iff (s : server) (u : userapi.User) :
    (failsWith (s.UpdateUser u).1 codes.Code.NotFound ↔ u.Id ∉ s.cache.keys) ∧
    (u.Id ∉ s.cache.keys → (s.UpdateUser u).2 = s) ∧
    (u.Id ∈ s.cache.keys →
      returns (s.UpdateUser u).1 ⟨"Success", "User updated successfully", some u⟩ ∧
      (s.UpdateUser u).2.cache.Load u.Id = some u) := by
  cases h : s.cache.Load u.Id with
  | none =>
    have hk : u.Id ∉ s.cache.keys := (Cache.Load_eq_none_iff _ _).1 h
    rw [server.UpdateUser_of_Load_none s u h]
    exact ⟨⟨fun _ => hk, fun _ => ⟨_, rfl, rfl⟩⟩, fun _ => rfl, fun hin => absurd hin hk⟩
  | some v =>
    have hk : u.Id ∈ s.cache.keys :=
      (Cache.Load_isSome_iff _ _).1 (by simp [h])
    rw [server.UpdateUser_of_Load_some s u v h]
    refine ⟨⟨?_, fun hn => absurd hk hn⟩, fun hn => absurd hk hn, fun _ => ⟨rfl, ?_⟩⟩
    · rintro ⟨e, he, _⟩
      cases he
    · exact Cache.Load_Store_self _ _ _

/-- An update of a stored user, and an update of a missing one. -/
theorem UpdateUser_notFound_iff_witness :
    (returns ((server.mk [("u3", ⟨"u3", "Cy", "cy@example.org"⟩)]).UpdateUser
        ⟨"u3", "Cyd", "cyd@example.org"⟩).1
      ⟨"Success", "User updated successfully", some ⟨"u3", "Cyd", "cyd@example.org"⟩⟩ ∧
    ((server.mk [("u3", ⟨"u3", "Cy", "cy@example.org"⟩)]).UpdateUser
        ⟨"u3", "Cyd", "cyd@example.org"⟩).2.cache.Load "u3" =
      some ⟨"u3", "Cyd", "cyd@example.org"⟩) ∧
    ((server.mk [("u3", ⟨"u3", "Cy", "cy@example.org"⟩)]).UpdateUser
        ⟨"u4", "Di", "di@example.org"⟩).2 =
      server.mk [("u3", ⟨"u3", "Cy", "cy@example.org"⟩)] :=
  ⟨(UpdateUser_notFound_iff (server.mk [("u3", ⟨"u3", "Cy", "cy@example.org"⟩)])
      ⟨"u3", "Cyd", "cyd@example.org"⟩).2.2 (by decide),
    (UpdateUser_notFound_iff (server.mk [("u3", ⟨"u3", "Cy", "cy@example.org"⟩)])
      ⟨"u4", "Di", "di@example.org"⟩).2.1 (by decide)⟩

/-- C4: on a store without `r.Id`, and for `r2` with the id of `r`, the
sequence `CreateUser(r)`, `GetUser(id)`, `UpdateUser(r2)`, `GetUser(id)`
succeeds at every step; the first read returns `r` and the last returns
exactly `r2`. -/
theorem Create_Get_Update_Get (s : server) (r r2 : userapi.User)
    (h : r.Id ∉ s.cache.keys) (hid : r2.Id = r.Id) :
    (∃ resp, (s.CreateUser r).1 = Except.ok resp) ∧
    ((s.CreateUser r).2.GetUser ⟨r.Id⟩).1 = Except.ok r ∧
    (∃ resp, (((s.CreateUser r).2.GetUser ⟨r.Id⟩).2.UpdateUser r2).1 = Except.ok resp) ∧
    ((((s.CreateUser r).2.GetUser ⟨r.Id⟩).2.UpdateUser r2).2.GetUser ⟨r.Id⟩).1
      = Except.ok r2 := by
  have hl : s.cache.Load r.Id = none := (Cache.Load_eq_none_iff _ _).2 h
  have h1 := server.CreateUser_of_Load_none s r hl
  have hs1 : (server.mk (s.cache.Store r.Id r)).cache.Load r.Id = some r :=
    Cache.Load_Store_self _ _ _
  have h2 := server.GetUser_of_Load_some ⟨s.cache.Store r.Id r⟩ ⟨r.Id⟩ r hs1
  have hs2 : (server.mk (s.cache.Store r.Id r)).cache.Load r2.Id = some r := by
    rw [hid]
    exact hs1
  have h3 := server.UpdateUser_of_Load_some ⟨s.cache.Store r.Id r⟩ r2 r hs2
  have hs3 : (server.mk ((s.cache.Store r.Id r).Store r2.Id r2)).cache.Load r.Id
      = some r2 := by
    rw [← hid]
    exact Cache.Load_Store_self _ _ _
  have h4 := server.GetUser_of_Load_some
    ⟨(s.cache.Store r.Id r).Store r2.Id r2⟩ ⟨r.Id⟩ r2 hs3
  rw [h1]
  refine ⟨⟨_, rfl⟩, ?_⟩
  show (server.GetUser ⟨s.cache.Store r.Id r⟩ ⟨r.Id⟩).1 = Except.ok r ∧ _
  rw [h2]
  refine ⟨rfl, ?_⟩
  show (∃ resp, (server.UpdateUser ⟨s.cache.Store r.Id r⟩ r2).1 = Except.ok resp) ∧
    ((server.UpdateUser ⟨s.cache.Store r.Id r⟩ r2).2.GetUser ⟨r.Id⟩).1 = Except.ok r2
  rw [h3]
  refine ⟨⟨_, rfl⟩, ?_⟩
  exact congrArg Prod.fst h4

/-- The round trip on the empty store, with every field of the second record
different from the first. -/
theorem Create_Get_Update_Get_witness :
    "u1" ∉ (server.mk []).cache.keys ∧
    (((((server.mk []).CreateUser ⟨"u1", "Ann", "ann@example.org"⟩).2.GetUser
        ⟨"u1"⟩).2.UpdateUser ⟨"u1", "Bea", "bea@example.org"⟩).2.GetUser ⟨"u1"⟩).1
      = Except.ok ⟨"u1", "Bea", "bea@example.org"⟩ :=
  ⟨by decide,
    (Create_Get_Update_Get (server.mk []) ⟨"u1", "Ann", "ann@example.org"⟩
      ⟨"u1", "Bea", "bea@example.org"⟩ (by decide) rfl).2.2.2⟩

/-! ## Read -/

/-- C6: `GetUser(id)` fails with status code `NotFound` exactly when `id` is
not a key of the store; otherwise it returns the record stored under `id`,
the value of the entry that `Load` finds. -/
theorem GetUser_notFound_iff (s : server) (id : String) :
    (failsWith (s.GetUser ⟨id⟩).1 codes.Code.NotFound ↔ id ∉ s.cache.keys) ∧
    (id ∈ s.cache.keys →
      ∃ v, (id, v) ∈ s.cache ∧ s.cache.Load id = some v ∧
        (s.GetUser ⟨id⟩).1 = Except.ok v) := by
  cases h : s.cache.Load id with
  | none =>
    have hk : id ∉ s.cache.keys := (Cache.Load_eq_none_iff _ _).1 h
    rw [server.GetUser_of_Load_none s ⟨id⟩ h]
    exact ⟨⟨fun _ => hk, fun _ => ⟨_, rfl, rfl⟩⟩, fun hin => absurd hin hk⟩
  | some v =>
    have hk : id ∈ s.cache.keys :=
      (Cache.Load_isSome_iff _ _).1 (by simp [h])
    rw [server.GetUser_of_Load_some s ⟨id⟩ v h]
    refine ⟨⟨?_, fun hn => absurd hk hn⟩,
      fun _ => ⟨v, Cache.mem_of_Load_eq_some _ _ _ h, rfl, rfl⟩⟩
    rintro ⟨e, he, _⟩
    cases he

/-- A read of a stored user. -/
theorem GetUser_notFound_iff_witness :
    ∃ v, ("u1", v) ∈ (server.mk [("u1", ⟨"u1", "Ann", "ann@example.org"⟩)]).cache ∧
      (server.mk [("u1", ⟨"u1", "Ann", "ann@example.org"⟩)]).cache.Load "u1" = some v ∧
      ((server.mk [("u1", ⟨"u1", "Ann", "ann@example.org"⟩)]).GetUser ⟨"u1"⟩).1
        = Except.ok v :=
  (GetUser_notFound_iff (server.mk [("u1", ⟨"u1", "Ann", "ann@example.org"⟩)]) "u1").2
    (by decide)

/-! ## Delete -/

/-- C7: `DeleteUser(id)` fails with status code `NotFound` exactly when `id`
is not a key of the store; otherwise it succeeds and `id` is no longer a key
of the resulting store. -/
theorem DeleteUser_notFound_iff (s : server) (id : String) :
    (failsWith (s.DeleteUser ⟨id⟩).1 codes.Code.NotFound ↔ id ∉ s.cache.keys) ∧
    (id ∈ s.cache.keys →
      returns (s.DeleteUser ⟨id⟩).1 ⟨"Success", "User deleted successfully", none⟩ ∧
      id ∉ (s.DeleteUser ⟨id⟩).2.cache.keys) := by
  cases h : s.cache.Load id with
  | none =>
    have hk : id ∉ s.cache.keys := (Cache.Load_eq_none_iff _ _).1 h
    rw [server.DeleteUser_of_Load_none s ⟨id⟩ h]
    exact ⟨⟨fun _ => hk, fun _ => ⟨_, rfl, rfl⟩⟩, fun hin => absurd hin hk⟩
  | some v =>
    have hk : id ∈ s.cache.keys :=
      (Cache.Load_isSome_iff _ _).1 (by simp [h])
    rw [server.DeleteUser_of_Load_some s ⟨id⟩ v h]
    refine ⟨⟨?_, fun hn => absurd hk hn⟩,
      fun _ => ⟨rfl, Cache.not_mem_keys_Delete _ _⟩⟩
    rintro ⟨e, he, _⟩
    cases he

/-- A delete of one of two stored users. -/
theorem DeleteUser_notFound_iff_witness :
    returns ((server.mk [("u1", ⟨"u1", "Ann", "ann@example.org"⟩),
        ("u2", ⟨"u2", "Bob", "bob@example.org"⟩)]).DeleteUser ⟨"u1"⟩).1
      ⟨"Success", "User deleted successfully", none⟩ ∧
    "u1" ∉ ((server.mk [("u1", ⟨"u1", "Ann", "ann@example.org"⟩),
        ("u2", ⟨"u2", "Bob", "bob@example.org"⟩)]).DeleteUser ⟨"u1"⟩).2.cache.keys :=
  (DeleteUser_notFound_iff (server.mk [("u1", ⟨"u1", "Ann", "ann@example.org"⟩),
    ("u2", ⟨"u2", "Bob", "bob@example.org"⟩)]) "u1").2 (by decide)

/-- C8: on a store containing `id`, of two consecutive `DeleteUser(id)` calls
the first succeeds and the second fails with `NotFound`, and the store after
the second call equals the store after the first. -/
theorem DeleteUser_twice (s : server) (id : String) (h : id ∈ s.cache.keys) :
    (∃ resp, (s.DeleteUser ⟨id⟩).1 = Except.ok resp) ∧
    failsWith ((s.DeleteUser ⟨id⟩).2.DeleteUser ⟨id⟩).1 codes.Code.NotFound ∧
    ((s.DeleteUser ⟨id⟩).2.DeleteUser ⟨id⟩).2 = (s.DeleteUser ⟨id⟩).2 := by
  obtain ⟨v, hv⟩ := Cache.exists_Load_of_mem_keys _ _ h
  have h2 := server.DeleteUser_of_Load_none ⟨s.cache.Delete id⟩ ⟨id⟩
    (Cache.Load_Delete_self _ _)
  rw [server.DeleteUser_of_Load_some s ⟨id⟩ v hv]
  refine ⟨⟨_, rfl⟩, ?_⟩
  show failsWith (server.DeleteUser ⟨s.cache.Delete id⟩ ⟨id⟩).1 codes.Code.NotFound ∧
    (server.DeleteUser ⟨s.cache.Delete id⟩ ⟨id⟩).2 = ⟨s.cache.Delete id⟩
  rw [h2]
  exact ⟨⟨_, rfl, rfl⟩, rfl⟩

/-- Two deletes of the only stored user. -/
theorem DeleteUser_twice_witness :
    "u1" ∈ (server.mk [("u1", ⟨"u1", "Ann", "ann@example.org"⟩)]).cache.keys ∧
    failsWith (((server.mk [("u1", ⟨"u1", "Ann", "ann@example.org"⟩)]).DeleteUser
      ⟨"u1"⟩).2.DeleteUser ⟨"u1"⟩).1 codes.Code.NotFound :=
  ⟨by decide,
    (DeleteUser_twice (server.mk [("u1", ⟨"u1", "Ann", "ann@example.org"⟩)]) "u1"
      (by decide)).2.1⟩

/-! ## Calls that change nothing -/

/-- C9: `GetUser` leaves the store as it was, and so does every `CreateUser`,
`UpdateUser` and `DeleteUser` call that returns an error; a `CreateUser` for
an id that is a key of the store keeps the stored record. -/
theorem failed_calls_keep_store (s : server) (u : userapi.User)
    (req : userapi.GetRequest) :
    (s.GetUser req).2 = s ∧
    ((∃ e, (s.CreateUser u).1 = Except.error e) → (s.CreateUser u).2 = s) ∧
    ((∃ e, (s.UpdateUser u).1 = Except.error e) → (s.UpdateUser u).2 = s) ∧
    ((∃ e, (s.DeleteUser req).1 = Except.error e) → (s.DeleteUser req).2 = s) ∧
    (u.Id ∈ s.cache.keys →
      (s.CreateUser u).2.cache.Load u.Id = s.cache.Load u.Id) := by
  refine ⟨?_, ?_, ?_, ?_, ?_⟩
  · cases h : s.cache.Load req.Id with
    | none => rw [server.GetUser_of_Load_none s req h]
    | some v => rw [server.GetUser_of_Load_some s req v h]
  · cases h : s.cache.Load u.Id with
    | none =>
      rw [server.CreateUser_of_Load_none s u h]
      rintro ⟨e, he⟩
      cases he
    | some v =>
      rw [server.CreateUser_of_Load_some s u v h]
      exact fun _ => rfl
  · cases h : s.cache.Load u.Id with
    | none =>
      rw [server.UpdateUser_of_Load_none s u h]
      exact fun _ => rfl
    | some v =>
      rw [server.UpdateUser_of_Load_some s u v h]
      rintro ⟨e, he⟩
      cases he
  · cases h : s.cache.Load req.Id with
    | none =>
      rw [server.DeleteUser_of_Load_none s req h]
      exact fun _ => rfl
    | some v =>
      rw [server.DeleteUser_of_Load_some s req v h]
      rintro ⟨e, he⟩
      cases he
  · intro hk
    obtain ⟨v, hv⟩ := Cache.exists_Load_of_mem_keys _ _ hk
    rw [server.CreateUser_of_Load_some s u v hv]

/-- A create of a stored id, and an update and a delete of missing ids, on a
store holding one user. -/
theorem failed_calls_keep_store_witness :
    ((server.mk [("u1", ⟨"u1", "Ann", "ann@example.org"⟩)]).CreateUser
        ⟨"u1", "Bob", "bob@example.org"⟩).2
      = server.mk [("u1", ⟨"u1", "Ann", "ann@example.org"⟩)] ∧
    ((server.mk [("u1", ⟨"u1", "Ann", "ann@example.org"⟩)]).CreateUser
        ⟨"u1", "Bob", "bob@example.org"⟩).2.cache.Load "u1"
      = some ⟨"u1", "Ann", "ann@example.org"⟩ ∧
    ((server.mk [("u1", ⟨"u1", "Ann", "ann@example.org"⟩)]).UpdateUser
        ⟨"u5", "Eve", "eve@example.org"⟩).2
      = server.mk [("u1", ⟨"u1", "Ann", "ann@example.org"⟩)] ∧
    ((server.mk [("u1", ⟨"u1", "Ann", "ann@example.org"⟩)]).DeleteUser ⟨"u5"⟩).2
      = server.mk [("u1", ⟨"u1", "Ann", "ann@example.org"⟩)] :=
  ⟨(failed_calls_keep_store (server.mk [("u1", ⟨"u1", "Ann", "ann@example.org"⟩)])
      ⟨"u1", "Bob", "bob@example.org"⟩ ⟨"u5"⟩).2.1 ⟨_, rfl⟩,
    (failed_calls_keep_store (server.mk [("u1", ⟨"u1", "Ann", "ann@example.org"⟩)])
      ⟨"u1", "Bob", "bob@example.org"⟩ ⟨"u5"⟩).2.2.2.2 (by decide),
    (failed_calls_keep_store (server.mk [("u1", ⟨"u1", "Ann", "ann@example.org"⟩)])
      ⟨"u5", "Eve", "eve@example.org"⟩ ⟨"u5"⟩).2.2.1 ⟨_, rfl⟩,
    (failed_calls_keep_store (server.mk [("u1", ⟨"u1", "Ann", "ann@example.org"⟩)])
      ⟨"u5", "Eve", "eve@example.org"⟩ ⟨"u5"⟩).2.2.2.1 ⟨_, rfl⟩⟩

/-! ## Observe -/

/-- C10: for a User resource, `external.Observe` decides on the status code
of the `GetUser` answer alone: on an error with code `NotFound` it returns an
observation with `ResourceExists = false` and no error; on an error with any
other code it returns the zero observation and the error wrapped as
"cannot get user"; on a success it returns `ResourceExists = true` and no
error. -/
theorem Observe_by_status_code {σ : Type} (c : external σ) (st : σ)
    (cr : v1alpha1.User) :
    (∀ err st1,
      c.service.userCli.GetUser st ⟨cr.Spec.ForProvider.Id⟩ = (Except.error err, st1) →
      status.Code err = codes.Code.NotFound →
      (c.Observe st (resource.Managed.User cr)).1 = (⟨false, false, false, none⟩, none)) ∧
    (∀ err st1,
      c.service.userCli.GetUser st ⟨cr.Spec.ForProvider.Id⟩ = (Except.error err, st1) →
      status.Code err ≠ codes.Code.NotFound →
      (c.Observe st (resource.Managed.User cr)).1 =
        (managed.ExternalObservation.zero, some (GoError.wrap err "cannot get user"))) ∧
    (∀ user st1,
      c.service.userCli.GetUser st ⟨cr.Spec.ForProvider.Id⟩ = (Except.ok user, st1) →
      (c.Observe st (resource.Managed.User cr)).1.1.ResourceExists = true ∧
      (c.Observe st (resource.Managed.User cr)).1.2 = none) := by
  refine ⟨?_, ?_, ?_⟩
  · intro err st1 hget hcode
    simp [external.Observe, hget, hcode]
  · intro err st1 hget hcode
    simp [external.Observe, hget, hcode]
  · intro user st1 hget
    simp [external.Observe, hget]

/-- An observation against the empty store, against a client whose calls
fail with `Unavailable`, and against a store holding the user. -/
theorem Observe_by_status_code_witness :
    ((external.mk (UserService.mk server.client)).Observe (server.mk [])
        (resource.Managed.User ⟨⟨⟨"u1", some "Ann", none⟩⟩⟩)).1
      = (⟨false, false, false, none⟩, none) ∧
    ((external.mk (UserService.mk
        (failingClient (GoError.status codes.Code.Unavailable "connection refused")))).Observe
        () (resource.Managed.User ⟨⟨⟨"u1", some "Ann", none⟩⟩⟩)).1
      = (managed.ExternalObservation.zero,
          some (GoError.wrap (GoError.status codes.Code.Unavailable "connection refused")
            "cannot get user")) ∧
    ((external.mk (UserService.mk server.client)).Observe
        (server.mk [("u1", ⟨"u1", "Ann", ""⟩)])
        (resource.Managed.User ⟨⟨⟨"u1", some "Ann", none⟩⟩⟩)).1.1.ResourceExists = true :=
  ⟨(Observe_by_status_code (external.mk (UserService.mk server.client)) (server.mk [])
      ⟨⟨⟨"u1", some "Ann", none⟩⟩⟩).1 _ _ rfl rfl,
    (Observe_by_status_code (external.mk (UserService.mk
      (failingClient (GoError.status codes.Code.Unavailable "connection refused")))) ()
      ⟨⟨⟨"u1", some "Ann", none⟩⟩⟩).2.1 _ _ rfl (by decide),
    ((Observe_by_status_code (external.mk (UserService.mk server.client))
      (server.mk [("u1", ⟨"u1", "Ann", ""⟩)])
      ⟨⟨⟨"u1", some "Ann", none⟩⟩⟩).2.2 _ _ rfl).1⟩

/-! ## The controller against the server -/

theorem Observe_server_of_Load_none (s : server) (cr : v1alpha1.User)
    (h : s.cache.Load cr.Spec.ForProvider.Id = none) :
    (external.mk (UserService.mk server.client)).Observe s (resource.Managed.User cr)
      = ((⟨false, false, false, none⟩, none), s) := by
  have hg := server.GetUser_of_Load_none s ⟨cr.Spec.ForProvider.Id⟩ h
  simp [external.Observe, server.client, hg, status.Code]

theorem Observe_server_of_Load_some (s : server) (cr : v1alpha1.User)
    (v : userapi.User) (h : s.cache.Load cr.Spec.ForProvider.Id = some v) :
    (external.mk (UserService.mk server.client)).Observe s (resource.Managed.User cr)
      = ((⟨true, true, false, some []⟩, none), s) := by
  have hg := server.GetUser_of_Load_some s ⟨cr.Spec.ForProvider.Id⟩ v h
  simp [external.Observe, server.client, hg]

theorem Create_server_of_Load_none (s : server) (cr : v1alpha1.User)
    (h : s.cache.Load cr.Spec.ForProvider.Id = none) :
    (external.mk (UserService.mk server.client)).Create s (resource.Managed.User cr)
      = ((⟨some []⟩, none),
          ⟨s.cache.Store cr.Spec.ForProvider.Id
            ⟨cr.Spec.ForProvider.Id, cr.Spec.ForProvider.Name.getD "",
              cr.Spec.ForProvider.Email.getD ""⟩⟩) := by
  obtain ⟨⟨⟨id, name, email⟩⟩⟩ := cr
  have hc : ∀ u : userapi.User, u.Id = id → s.CreateUser u =
      (Except.ok ⟨"Success", "User created successfully", some u⟩,
        ⟨s.cache.Store u.Id u⟩) := by
    intro u hu
    exact server.CreateUser_of_Load_none s u (by rw [hu]; exact h)
  cases name <;> cases email <;>
    simp [external.Create, server.client, hc, errorOf]

theorem Create_server_of_Load_some (s : server) (cr : v1alpha1.User)
    (v : userapi.User) (h : s.cache.Load cr.Spec.ForProvider.Id = some v) :
    (external.mk (UserService.mk server.client)).Create s (resource.Managed.User cr)
      = ((⟨some []⟩, some (GoError.status codes.Code.AlreadyExists
            ("User with ID '" ++ cr.Spec.ForProvider.Id ++ "' already exists."))), s) := by
  obtain ⟨⟨⟨id, name, email⟩⟩⟩ := cr
  have hc : ∀ u : userapi.User, u.Id = id → s.CreateUser u =
      (Except.error (GoError.status codes.Code.AlreadyExists
        ("User with ID '" ++ id ++ "' already exists.")), s) := by
    intro u hu
    have := server.CreateUser_of_Load_some s u v (by rw [hu]; exact h)
    rw [hu] at this
    exact this
  cases name <;> cases email <;>
    simp [external.Create, server.client, hc, errorOf]

/-- C11: against a store that holds the user `u3` with the name "Old" and the
email "old@example.org", `external.Observe` of a resource that wants the name
"New" and the email "new@example.org" reports `ResourceUpToDate = true`: the
flag is the constant `true`, no attribute of the record read is compared. -/
theorem Observe_upToDate_without_comparison :
    ((server.mk [("u3", ⟨"u3", "Old", "old@example.org"⟩)]).GetUser ⟨"u3"⟩).1
      = Except.ok ⟨"u3", "Old", "old@example.org"⟩ ∧
    ((external.mk (UserService.mk server.client)).Observe
        (server.mk [("u3", ⟨"u3", "Old", "old@example.org"⟩)])
        (resource.Managed.User
          ⟨⟨⟨"u3", some "New", some "new@example.org"⟩⟩⟩)).1
      = (⟨true, true, false, some []⟩, none) :=
  ⟨rfl, by decide⟩

/-- C12: for a User resource whose id is not in the store, `external.Observe`
reports `ResourceExists = false` without error; `external.Create` then
succeeds and the store maps the id to the record of the desired id, name and
email, with "" for an unset name or email; a following `external.Observe`
reports `ResourceExists = true` and `ResourceUpToDate = true` without error
and leaves the store unchanged. -/
theorem Observe_Create_Observe (s : server) (cr : v1alpha1.User)
    (h : cr.Spec.ForProvider.Id ∉ s.cache.keys) :
    ((external.mk (UserService.mk server.client)).Observe s
        (resource.Managed.User cr)).1 = (⟨false, false, false, none⟩, none) ∧
    ((external.mk (UserService.mk server.client)).Create s
        (resource.Managed.User cr)).1.2 = none ∧
    ((external.mk (UserService.mk server.client)).Create s
        (resource.Managed.User cr)).2.cache.Load cr.Spec.ForProvider.Id
      = some ⟨cr.Spec.ForProvider.Id, cr.Spec.ForProvider.Name.getD "",
          cr.Spec.ForProvider.Email.getD ""⟩ ∧
    ((external.mk (UserService.mk server.client)).Observe
        ((external.mk (UserService.mk server.client)).Create s
          (resource.Managed.User cr)).2 (resource.Managed.User cr))
      = ((⟨true, true, false, some []⟩, none),
          ((external.mk (UserService.mk server.client)).Create s
            (resource.Managed.User cr)).2) := by
  have hl : s.cache.Load cr.Spec.ForProvider.Id = none :=
    (Cache.Load_eq_none_iff _ _).2 h
  rw [Observe_server_of_Load_none s cr hl, Create_server_of_Load_none s cr hl]
  refine ⟨rfl, rfl, Cache.Load_Store_self _ _ _, ?_⟩
  exact Observe_server_of_Load_some _ cr _ (Cache.Load_Store_self _ _ _)

/-- The scenario of the user `u1` named "Ann", with no email, on the empty
store. -/
theorem Observe_Create_Observe_witness :
    "u1" ∉ (server.mk []).cache.keys ∧
    ((external.mk (UserService.mk server.client)).Create (server.mk [])
        (resource.Managed.User ⟨⟨⟨"u1", some "Ann", none⟩⟩⟩)).2.cache.Load "u1"
      = some ⟨"u1", "Ann", ""⟩ :=
  ⟨by decide,
    (Observe_Create_Observe (server.mk []) ⟨⟨⟨"u1", some "Ann", none⟩⟩⟩
      (by decide)).2.2.1⟩

/-- The method `external.Update` reaches no service: whatever the client,
the state of the service is the one it started from. -/
theorem external.Update_state {σ : Type} (c : external σ) (st : σ)
    (mg : resource.Managed) : (c.Update st mg).2 = st := by
  cases mg <;> rfl

/-- The method `external.Delete` reaches no service: whatever the client,
the state of the service is the one it started from. -/
theorem external.Delete_state {σ : Type} (c : external σ) (st : σ)
    (mg : resource.Managed) : (c.Delete st mg).2 = st := by
  cases mg <;> rfl

/-- C13: against a store that holds the user `u3` with the name "Old",
`external.Update` of a resource that wants the name "New" returns no error
and makes no call (a client that counts its calls stays at 0); the store is
unchanged and a following `GetUser` still returns the old record. -/
theorem Update_issues_no_UpdateUser :
    ((external.mk (UserService.mk server.client)).Update
        (server.mk [("u3", ⟨"u3", "Old", "old@example.org"⟩)])
        (resource.Managed.User
          ⟨⟨⟨"u3", some "New", some "new@example.org"⟩⟩⟩)).1.2 = none ∧
    ((external.mk (UserService.mk countingClient)).Update 0
        (resource.Managed.User
          ⟨⟨⟨"u3", some "New", some "new@example.org"⟩⟩⟩)).2 = 0 ∧
    (((external.mk (UserService.mk server.client)).Update
        (server.mk [("u3", ⟨"u3", "Old", "old@example.org"⟩)])
        (resource.Managed.User
          ⟨⟨⟨"u3", some "New", some "new@example.org"⟩⟩⟩)).2.GetUser ⟨"u3"⟩).1
      = Except.ok ⟨"u3", "Old", "old@example.org"⟩ :=
  ⟨rfl, rfl, rfl⟩

/-- C14: against a store that holds the user `u1`, `external.Delete` of the
resource with the id `u1` returns no error and makes no call (a client that
counts its calls stays at 0); the store is unchanged and still holds the
record of `u1`. -/
theorem Delete_issues_no_DeleteUser :
    ((external.mk (UserService.mk server.client)).Delete
        (server.mk [("u1", ⟨"u1", "Ann", "ann@example.org"⟩)])
        (resource.Managed.User ⟨⟨⟨"u1", some "Ann", none⟩⟩⟩)).1 = none ∧
    ((external.mk (UserService.mk countingClient)).Delete 0
        (resource.Managed.User ⟨⟨⟨"u1", some "Ann", none⟩⟩⟩)).2 = 0 ∧
    ((external.mk (UserService.mk server.client)).Delete
        (server.mk [("u1", ⟨"u1", "Ann", "ann@example.org"⟩)])
        (resource.Managed.User ⟨⟨⟨"u1", some "Ann", none⟩⟩⟩)).2.cache.Load "u1"
      = some ⟨"u1", "Ann", "ann@example.org"⟩ := by
  decide

/-- The claim C15 fails: against a store that holds the user `u2`,
`external.Create` of a resource with the id `u2` returns the `AlreadyExists`
error of `CreateUser`. -/
theorem Create_reports_alreadyExists :
    "u2" ∈ (server.mk [("u2", ⟨"u2", "Bob", "bob@example.org"⟩)]).cache.keys ∧
    ((external.mk (UserService.mk server.client)).Create
        (server.mk [("u2", ⟨"u2", "Bob", "bob@example.org"⟩)])
        (resource.Managed.User ⟨⟨⟨"u2", some "Bob", none⟩⟩⟩)).1.2
      = some (GoError.status codes.Code.AlreadyExists
          "User with ID 'u2' already exists.") := by
  decide

/-- The method `external.Create` on a User makes one call, `CreateUser` with
the desired record, and nothing after it: its error is the error of that
call and the state of the service is the state that call leaves. -/
theorem external.Create_is_one_CreateUser {σ : Type} (c : external σ) (st : σ)
    (cr : v1alpha1.User) :
    c.Create st (resource.Managed.User cr)
      = ((⟨some []⟩,
          errorOf (c.service.userCli.CreateUser st
            ⟨cr.Spec.ForProvider.Id, cr.Spec.ForProvider.Name.getD "",
              cr.Spec.ForProvider.Email.getD ""⟩).1),
        (c.service.userCli.CreateUser st
          ⟨cr.Spec.ForProvider.Id, cr.Spec.ForProvider.Name.getD "",
            cr.Spec.ForProvider.Email.getD ""⟩).2) := by
  obtain ⟨⟨⟨id, name, email⟩⟩⟩ := cr
  cases name <;> cases email <;> rfl

/-- C15, as amended: for a User resource whose id already has a record in the
store, `external.Create` reports failure: it returns the `AlreadyExists`
error of `CreateUser` as it is, not wrapped, and leaves the store unchanged;
it makes no re-observation of its own: whatever the client, its one call is
that `CreateUser` (a client that counts its calls goes from 0 to 1), and the
state of the service is the state that call leaves. -/
theorem Create_of_stored_id (s : server) (cr : v1alpha1.User)
    (h : cr.Spec.ForProvider.Id ∈ s.cache.keys) :
    (∃ e, ((external.mk (UserService.mk server.client)).Create s
        (resource.Managed.User cr)).1.2 = some e ∧
      status.Code e = codes.Code.AlreadyExists ∧
      (s.CreateUser ⟨cr.Spec.ForProvider.Id, cr.Spec.ForProvider.Name.getD "",
        cr.Spec.ForProvider.Email.getD ""⟩).1 = Except.error e) ∧
    ((external.mk (UserService.mk server.client)).Create s
        (resource.Managed.User cr)).2 = s ∧
    (∀ (σ : Type) (c : external σ) (st : σ),
      c.Create st (resource.Managed.User cr)
        = ((⟨some []⟩,
            errorOf (c.service.userCli.CreateUser st
              ⟨cr.Spec.ForProvider.Id, cr.Spec.ForProvider.Name.getD "",
                cr.Spec.ForProvider.Email.getD ""⟩).1),
          (c.service.userCli.CreateUser st
            ⟨cr.Spec.ForProvider.Id, cr.Spec.ForProvider.Name.getD "",
              cr.Spec.ForProvider.Email.getD ""⟩).2)) ∧
    ((external.mk (UserService.mk countingClient)).Create 0
        (resource.Managed.User cr)).2 = 1 := by
  obtain ⟨v, hv⟩ := Cache.exists_Load_of_mem_keys _ _ h
  refine ⟨?_, ?_, fun σ c st => external.Create_is_one_CreateUser c st cr, ?_⟩
  · rw [Create_server_of_Load_some s cr v hv]
    refine ⟨_, rfl, rfl, ?_⟩
    exact congrArg Prod.fst (server.CreateUser_of_Load_some s
      ⟨cr.Spec.ForProvider.Id, cr.Spec.ForProvider.Name.getD "",
        cr.Spec.ForProvider.Email.getD ""⟩ v hv)
  · rw [Create_server_of_Load_some s cr v hv]
  · rw [external.Create_is_one_CreateUser]
    rfl

/-- A create of the stored user `u7`: the store is unchanged and a client
that counts its calls has received one. -/
theorem Create_of_stored_id_witness :
    "u7" ∈ (server.mk [("u7", ⟨"u7", "Gus", ""⟩)]).cache.keys ∧
    ((external.mk (UserService.mk server.client)).Create
        (server.mk [("u7", ⟨"u7", "Gus", ""⟩)])
        (resource.Managed.User ⟨⟨⟨"u7", some "Gil", none⟩⟩⟩)).2
      = server.mk [("u7", ⟨"u7", "Gus", ""⟩)] ∧
    ((external.mk (UserService.mk countingClient)).Create 0
        (resource.Managed.User ⟨⟨⟨"u7", some "Gil", none⟩⟩⟩)).2 = 1 :=
  ⟨by decide,
    (Create_of_stored_id (server.mk [("u7", ⟨"u7", "Gus", ""⟩)])
      ⟨⟨⟨"u7", some "Gil", none⟩⟩⟩ (by decide)).2.1,
    (Create_of_stored_id (server.mk [("u7", ⟨"u7", "Gus", ""⟩)])
      ⟨⟨⟨"u7", some "Gil", none⟩⟩⟩ (by decide)).2.2.2⟩

/-! ## The id of a record is its key -/

theorem Cache.mem_of_mem_Delete (c : Cache) (a k : String) (v : userapi.User)
    (h : (k, v) ∈ c.Delete a) : (k, v) ∈ c := by
  induction c with
  | nil => simp [Cache.Delete] at h
  | cons e rest ih =>
    obtain ⟨k1, v1⟩ := e
    by_cases hk : k1 = a
    · simp only [Cache.Delete, hk, if_true] at h
      exact List.mem_cons_of_mem _ (ih h)
    · simp only [Cache.Delete, hk, if_false] at h
      rcases List.mem_cons.1 h with h1 | h1
      · rw [h1]
        exact List.mem_cons_self _ _
      · exact List.mem_cons_of_mem _ (ih h1)

theorem Cache.keyed_Delete (c : Cache) (a : String) (h : c.keyed) :
    (c.Delete a).keyed :=
  fun k v hm => h k v (Cache.mem_of_mem_Delete c a k v hm)

theorem Cache.keyed_Store (c : Cache) (u : userapi.User) (h : c.keyed) :
    (c.Store u.Id u).keyed := by
  intro k v hm
  rcases List.mem_cons.1 hm with h1 | h1
  · cases h1
    rfl
  · exact Cache.keyed_Delete c u.Id h k v h1

theorem server.keyed_serve (s : server) (r : Request) (h : s.cache.keyed) :
    (s.serve r).cache.keyed := by
  cases r with
  | CreateUser user =>
    cases hl : s.cache.Load user.Id with
    | none =>
      simp only [server.serve, server.CreateUser_of_Load_none s user hl]
      exact Cache.keyed_Store _ _ h
    | some v =>
      simp only [server.serve, server.CreateUser_of_Load_some s user v hl]
      exact h
  | GetUser req =>
    cases hl : s.cache.Load req.Id with
    | none =>
      simp only [server.serve, server.GetUser_of_Load_none s req hl]
      exact h
    | some v =>
      simp only [server.serve, server.GetUser_of_Load_some s req v hl]
      exact h
  | UpdateUser user =>
    cases hl : s.cache.Load user.Id with
    | none =>
      simp only [server.serve, server.UpdateUser_of_Load_none s user hl]
      exact h
    | some v =>
      simp only [server.serve, server.UpdateUser_of_Load_some s user v hl]
      exact Cache.keyed_Store _ _ h
  | DeleteUser req =>
    cases hl : s.cache.Load req.Id with
    | none =>
      simp only [server.serve, server.DeleteUser_of_Load_none s req hl]
      exact h
    | some v =>
      simp only [server.serve, server.DeleteUser_of_Load_some s req v hl]
      exact Cache.keyed_Delete _ _ h

theorem server.keyed_serveAll (reqs : List Request) (s : server)
    (h : s.cache.keyed) : (s.serveAll reqs).cache.keyed := by
  induction reqs generalizing s with
  | nil => exact h
  | cons r rest ih => exact ih (s.serve r) (server.keyed_serve s r h)

/-- C16: in every store reached from the empty store by a sequence of
`CreateUser`, `GetUser`, `UpdateUser` and `DeleteUser` calls, each stored
record has the key it is stored under as its `Id`; so when one more call
leaves a record under a key that held one, the two have the same `Id`. -/
theorem reachable_store_keyed (reqs : List Request) :
    (∀ k v, (k, v) ∈ ((server.mk []).serveAll reqs).cache → v.Id = k) ∧
    (∀ r k v w, ((server.mk []).serveAll reqs).cache.Load k = some v →
      (((server.mk []).serveAll reqs).serve r).cache.Load k = some w →
      w.Id = v.Id) := by
  have h0 : (server.mk []).cache.keyed := by
    intro k v hm
    cases hm
  have h1 := server.keyed_serveAll reqs (server.mk []) h0
  refine ⟨h1, ?_⟩
  intro r k v w hv hw
  have h2 := server.keyed_serve _ r h1
  rw [h1 k v (Cache.mem_of_Load_eq_some _ _ _ hv),
    h2 k w (Cache.mem_of_Load_eq_some _ _ _ hw)]

/-- A create, a failed delete of `u9`, an update and a read, from the empty
store, leave `u1` stored under the key `u1`; one more update keeps the id. -/
theorem reachable_store_keyed_witness :
    (("u1", ⟨"u1", "Bea", "bea@example.org"⟩) ∈ ((server.mk []).serveAll
        [Request.CreateUser ⟨"u1", "Ann", "ann@example.org"⟩,
          Request.DeleteUser ⟨"u9"⟩,
          Request.UpdateUser ⟨"u1", "Bea", "bea@example.org"⟩,
          Request.GetUser ⟨"u1"⟩]).cache ∧
      (⟨"u1", "Bea", "bea@example.org"⟩ : userapi.User).Id = "u1") ∧
    ((((server.mk []).serveAll
        [Request.CreateUser ⟨"u1", "Ann", "ann@example.org"⟩,
          Request.DeleteUser ⟨"u9"⟩,
          Request.UpdateUser ⟨"u1", "Bea", "bea@example.org"⟩,
          Request.GetUser ⟨"u1"⟩]).serve
        (Request.UpdateUser ⟨"u1", "Cal", ""⟩)).cache.Load "u1"
        = some ⟨"u1", "Cal", ""⟩ ∧
      (⟨"u1", "Cal", ""⟩ : userapi.User).Id
        = (⟨"u1", "Bea", "bea@example.org"⟩ : userapi.User).Id) :=
  ⟨⟨by decide,
      (reachable_store_keyed
        [Request.CreateUser ⟨"u1", "Ann", "ann@example.org"⟩,
          Request.DeleteUser ⟨"u9"⟩,
          Request.UpdateUser ⟨"u1", "Bea", "bea@example.org"⟩,
          Request.GetUser ⟨"u1"⟩]).1 "u1" ⟨"u1", "Bea", "bea@example.org"⟩
        (by decide)⟩,
    ⟨by decide,
      (reachable_store_keyed
        [Request.CreateUser ⟨"u1", "Ann", "ann@example.org"⟩,
          Request.DeleteUser ⟨"u9"⟩,
          Request.UpdateUser ⟨"u1", "Bea", "bea@example.org"⟩,
          Request.GetUser ⟨"u1"⟩]).2 (Request.UpdateUser ⟨"u1", "Cal", ""⟩) "u1"
        ⟨"u1", "Bea", "bea@example.org"⟩ ⟨"u1", "Cal", ""⟩ (by decide) (by decide)⟩⟩

/-! ## Connect -/

/-- A service function that returns an error: `Connect` returns no client and
the error wrapped as "cannot create new Service". -/
theorem connector.Connect_of_error {σ : Type} (c : connector σ)
    (mg : resource.Managed) (err : GoError)
    (h : c.newServiceFn "fake creds" = Outcome.returned (Except.error err)) :
    c.Connect mg = Outcome.returned (none, some (GoError.wrap err errNewClient)) := by
  simp [connector.Connect, h]

/-- A service function that returns a service: `Connect` returns a client on
that service and no error. -/
theorem connector.Connect_of_ok {σ : Type} (c : connector σ)
    (mg : resource.Managed) (svc : UserService σ)
    (h : c.newServiceFn "fake creds" = Outcome.returned (Except.ok svc)) :
    c.Connect mg = Outcome.returned (some ⟨svc⟩, none) := by
  simp [connector.Connect, h]

/-- With `newUserService` and a dial that succeeds, `Connect` returns a
client on the dialled connection and no error. -/
theorem connector.Connect_newUserService_of_dial_ok {σ : Type}
    (conn : grpc.ClientConn σ) (mg : resource.Managed) :
    (connector.mk (newUserService (Except.ok conn))).Connect mg
      = Outcome.returned (some ⟨⟨conn.calls⟩⟩, none) :=
  rfl

/-- C17: with the service function `newUserService`, which is the one that
`Setup` installs, and a dial that fails, `Connect` does not return: the
process exits with code 1, whatever the error and the resource. -/
theorem Connect_exits_when_dial_fails {σ : Type} (err : GoError)
    (mg : resource.Managed) :
    (connector.mk (newUserService
        (Except.error err : Except GoError (grpc.ClientConn σ)))).Connect mg
      = Outcome.exited 1 ∧
    ∀ answer, (connector.mk (newUserService
        (Except.error err : Except GoError (grpc.ClientConn σ)))).Connect mg
      ≠ Outcome.returned answer := by
  refine ⟨rfl, ?_⟩
  intro answer h
  cases h

/-! ## One id at a time -/

/-- C18: for an id `b` other than the id of the call, the lookup of `b` after
a `CreateUser`, an `UpdateUser` or a `DeleteUser` is the lookup of `b`
before it. -/
theorem other_ids_untouched (s : server) (u : userapi.User) (b : String)
    (h : u.Id ≠ b) :
    (s.CreateUser u).2.cache.Load b = s.cache.Load b ∧
    (s.UpdateUser u).2.cache.Load b = s.cache.Load b ∧
    (s.DeleteUser ⟨u.Id⟩).2.cache.Load b = s.cache.Load b := by
  cases hl : s.cache.Load u.Id with
  | none =>
    rw [server.CreateUser_of_Load_none s u hl, server.UpdateUser_of_Load_none s u hl,
      server.DeleteUser_of_Load_none s ⟨u.Id⟩ hl]
    exact ⟨Cache.Load_Store_of_ne _ _ _ _ h, rfl, rfl⟩
  | some v =>
    rw [server.CreateUser_of_Load_some s u v hl, server.UpdateUser_of_Load_some s u v hl,
      server.DeleteUser_of_Load_some s ⟨u.Id⟩ v hl]
    exact ⟨rfl, Cache.Load_Store_of_ne _ _ _ _ h, Cache.Load_Delete_of_ne _ _ _ h⟩

/-- An update and a delete of `u1`, and a create of `u3`, next to the stored
user `u2`. -/
theorem other_ids_untouched_witness :
    ((server.mk [("u1", ⟨"u1", "Ann", ""⟩), ("u2", ⟨"u2", "Bob", ""⟩)]).UpdateUser
        ⟨"u1", "Amy", "amy@example.org"⟩).2.cache.Load "u2"
      = some ⟨"u2", "Bob", ""⟩ ∧
    ((server.mk [("u1", ⟨"u1", "Ann", ""⟩), ("u2", ⟨"u2", "Bob", ""⟩)]).DeleteUser
        ⟨"u1"⟩).2.cache.Load "u2"
      = some ⟨"u2", "Bob", ""⟩ ∧
    ((server.mk [("u1", ⟨"u1", "Ann", ""⟩), ("u2", ⟨"u2", "Bob", ""⟩)]).CreateUser
        ⟨"u3", "Cy", ""⟩).2.cache.Load "u2"
      = some ⟨"u2", "Bob", ""⟩ :=
  ⟨(other_ids_untouched
      (server.mk [("u1", ⟨"u1", "Ann", ""⟩), ("u2", ⟨"u2", "Bob", ""⟩)])
      ⟨"u1", "Amy", "amy@example.org"⟩ "u2" (by decide)).2.1,
    (other_ids_untouched
      (server.mk [("u1", ⟨"u1", "Ann", ""⟩), ("u2", ⟨"u2", "Bob", ""⟩)])
      ⟨"u1", "Amy", "amy@example.org"⟩ "u2" (by decide)).2.2,
    (other_ids_untouched
      (server.mk [("u1", ⟨"u1", "Ann", ""⟩), ("u2", ⟨"u2", "Bob", ""⟩)])
      ⟨"u3", "Cy", ""⟩ "u2" (by decide)).1⟩

/-! ## Resources that are not a User -/

/-- C19: for a managed resource that is not a User, each of
`external.Observe`, `external.Create`, `external.Update` and
`external.Delete` returns the error "managed resource is not a User custom
resource" with a zero value, and, whatever the client, the state of the
service is the one it started from: no call is made. -/
theorem not_a_User_is_refused {σ : Type} (c : external σ) (st : σ)
    (kind : String) :
    c.Observe st (resource.Managed.other kind)
      = ((managed.ExternalObservation.zero,
          some (GoError.new "managed resource is not a User custom resource")), st) ∧
    c.Create st (resource.Managed.other kind)
      = ((⟨none⟩, some (GoError.new "managed resource is not a User custom resource")),
          st) ∧
    c.Update st (resource.Managed.other kind)
      = ((⟨none⟩, some (GoError.new "managed resource is not a User custom resource")),
          st) ∧
    c.Delete st (resource.Managed.other kind)
      = (some (GoError.new "managed resource is not a User custom resource"), st) :=
  ⟨rfl, rfl, rfl, rfl⟩
